import Mathlib

set_option maxRecDepth 10000

namespace Banall

/- Shallow embedding of `src/app.py` (the Banall Telegram bot).  The model
   covers the member-purge workflow `remove_all_members` (lines 60-106), the
   poll tick body of `check_rights_loop` (lines 109-153), the `on_added`
   event hook (lines 156-165) and the startup seeding `load_initial_chats`
   (lines 37-54).  Platform calls are parametrised by outcome oracles and the
   observable behaviour (kick attempts, operator messages, console logs,
   mutation of `cleaned_chats`, escaping exceptions) is recorded as data. -/

/-- Exceptions as distinguished by the error handling in `remove_all_members`:
`ChatAdminRequiredError` is the one class the outer handler catches; every
other exception is `other`.  The inner per-member handler catches both. -/
inductive Exc
  | chatAdminRequired
  | other
  deriving DecidableEq

/-- Operator-channel messages sent by `remove_all_members` via
`bot.send_message(LOG_GROUP_ID, ...)`, keeping the numeric payload the claims
talk about (the `removed` and `total` counters). -/
inductive Msg
  | starting (total : Nat)
  | progress (removed total : Nat)
  | completed (removed total : Nat)
  | lostRights
  deriving DecidableEq

/-- Outcome oracles for one invocation of `remove_all_members`:
`meId` is the bot's own id (`bot.get_me()`), `members` the result of
`bot.get_participants` (which may raise), `kick u` the outcome of
`bot.kick_participant(chat.id, u)` (`none` = success), and `sendFail k` the
outcome of the k-th `bot.send_message` call of this invocation (calls are
numbered in the order they are made, starting from 0). -/
structure Env where
  meId : Nat
  members : Except Exc (List Nat)
  kick : Nat → Option Exc
  sendFail : Nat → Option Exc

/-- Running state of the `for user in members` loop of `remove_all_members`:
the `removed` counter, the index of the next `send_message` call, the ids
passed to `kick_participant` so far, the messages successfully sent so far,
and the ids for which the per-member handler printed an error line. -/
structure LoopState where
  removed : Nat
  sendIdx : Nat
  kicks : List Nat
  msgs : List Msg
  logs : List Nat
  deriving DecidableEq

/-- One iteration of the removal loop (lines 74-86 of `app.py`).  The guard
skips the bot's own id; a raising `kick_participant` is caught by the blanket
`except Exception` (id logged, counter untouched, iteration continues); after
a successful kick the counter is incremented and every 20th success attempts a
progress message whose own failure is caught by the same blanket handler. -/
def purgeStep (env : Env) (total : Nat) (s : LoopState) (uid : Nat) : LoopState :=
  if uid = env.meId then s
  else
    match env.kick uid with
    | some _ => { s with kicks := s.kicks ++ [uid], logs := s.logs ++ [uid] }
    | none =>
      if (s.removed + 1) % 20 = 0 then
        match env.sendFail s.sendIdx with
        | some _ =>
            { removed := s.removed + 1, sendIdx := s.sendIdx + 1,
              kicks := s.kicks ++ [uid], msgs := s.msgs, logs := s.logs ++ [uid] }
        | none =>
            { removed := s.removed + 1, sendIdx := s.sendIdx + 1,
              kicks := s.kicks ++ [uid],
              msgs := s.msgs ++ [Msg.progress (s.removed + 1) total], logs := s.logs }
      else { s with removed := s.removed + 1, kicks := s.kicks ++ [uid] }

/-- Observable result of one `remove_all_members` invocation: kick attempts in
order, operator messages successfully sent, per-member console error lines,
the final value of the `removed` counter, whether `chat.id` was added to
`cleaned_chats`, and the exception escaping the coroutine (if any). -/
structure RunResult where
  kicks : List Nat
  msgs : List Msg
  logs : List Nat
  removed : Nat
  cleaned : Bool
  exc : Option Exc
  deriving DecidableEq

/-- The `except ChatAdminRequiredError` handler (lines 102-106): it sends the
"lost ban rights, stopping cleanup" message; if that send itself raises, the
exception escapes the coroutine (nothing catches it inside the handler). -/
def lostRightsSend (env : Env) (sendIdx : Nat) (base : RunResult) : RunResult :=
  match env.sendFail sendIdx with
  | some e => { base with exc := some e }
  | none => { base with msgs := base.msgs ++ [Msg.lostRights] }

/-- Loop state at entry of the removal loop: counter 0, send index 1 (the
starting message was send number 0), and the starting message already sent. -/
def initState (total : Nat) : LoopState :=
  ⟨0, 1, [], [Msg.starting total], []⟩

/-- The removal loop run over the member snapshot `l`. -/
def purgeRun (env : Env) (l : List Nat) : LoopState :=
  List.foldl (purgeStep env l.length) (initState l.length) l

/-- Model of `remove_all_members` (lines 60-106 of `app.py`).  The outer `try`
covers `get_participants`, the starting message, the loop, and the completion
summary; only `ChatAdminRequiredError` is caught there, any other exception
escapes.  `cleaned_chats.add(chat.id)` (line 100) runs only after the summary
send on line 99 returned without raising. -/
def remove_all_members (env : Env) : RunResult :=
  match env.members with
  | .error .chatAdminRequired => lostRightsSend env 0 ⟨[], [], [], 0, false, none⟩
  | .error .other => ⟨[], [], [], 0, false, some Exc.other⟩
  | .ok members =>
    match env.sendFail 0 with
    | some .chatAdminRequired => lostRightsSend env 1 ⟨[], [], [], 0, false, none⟩
    | some .other => ⟨[], [], [], 0, false, some Exc.other⟩
    | none =>
      match env.sendFail (purgeRun env members).sendIdx with
      | some .chatAdminRequired =>
          lostRightsSend env ((purgeRun env members).sendIdx + 1)
            ⟨(purgeRun env members).kicks, (purgeRun env members).msgs,
             (purgeRun env members).logs, (purgeRun env members).removed, false, none⟩
      | some .other =>
          ⟨(purgeRun env members).kicks, (purgeRun env members).msgs,
           (purgeRun env members).logs, (purgeRun env members).removed, false, some Exc.other⟩
      | none =>
          ⟨(purgeRun env members).kicks,
           (purgeRun env members).msgs
             ++ [Msg.completed (purgeRun env members).removed members.length],
           (purgeRun env members).logs, (purgeRun env members).removed, true, none⟩

/-- Number of members of `l` whose removal succeeds: not the bot itself and
`kick_participant` does not raise.  This is the final value of the `removed`
counter. -/
def succCountL (env : Env) : List Nat → Nat
  | [] => 0
  | u :: rest => (if u ≠ env.meId ∧ env.kick u = none then 1 else 0) + succCountL env rest

/-- The `removed` counters carried by the progress messages of a message
trace, in emission order. -/
def progressVals (msgs : List Msg) : List Nat :=
  msgs.filterMap (fun m => match m with | Msg.progress r _ => some r | _ => none)

/-- The list `[20, 40, ..., 20 * (c / 20)]` of positive multiples of 20 up to
`c`: the expected progress-message counters after `c` successful removals. -/
def twentiesUpTo (c : Nat) : List Nat :=
  (List.range (c / 20)).map (fun k => 20 * (k + 1))

/- ===== Poll tick model (`check_rights_loop`, lines 109-153) and event hook
   (`on_added`, lines 156-165). -/

/-- Outcome of probing one chat inside the tick: `entityErr` models
`bot.get_entity` raising (line 125), `permErr` models `bot.get_permissions`
raising (line 131), and `perms a b` a successful permission lookup with
`is_admin = a` and `ban_users = b`. -/
inductive ProbeOutcome
  | entityErr
  | permErr
  | perms (isAdmin banUsers : Bool)
  deriving DecidableEq

/-- Externally visible actions of the tick body and the event hook:
entity lookups, permission probes, console warning lines (`print`, lines 127
and 133), purge-task launches (`asyncio.create_task(remove_all_members ...)`,
line 140), the end-of-tick status send (lines 142-148, also the
no-tracked-groups message of line 114), and the added-to-group notice
(lines 162-165). -/
inductive Effect
  | entityLookup (g : Nat)
  | probeCall (g : Nat)
  | errLog (g : Nat)
  | launch (g : Nat)
  | statusSend
  | addedNotice (g : Nat)
  deriving DecidableEq

/-- Effects of the per-chat body of the tick loop (lines 123-140): fetch the
entity (on failure log and continue), fetch permissions (on failure log and
continue), and when `is_admin and ban_users` holds launch a purge task unless
the chat id is already in `cleaned_chats`. -/
def chatEffects (probe : Nat → ProbeOutcome) (cleaned : List Nat) (g : Nat) : List Effect :=
  match probe g with
  | .entityErr => [Effect.entityLookup g, Effect.errLog g]
  | .permErr => [Effect.entityLookup g, Effect.probeCall g, Effect.errLog g]
  | .perms a b =>
    if a && b then
      if cleaned.contains g then [Effect.entityLookup g, Effect.probeCall g]
      else [Effect.entityLookup g, Effect.probeCall g, Effect.launch g]
    else [Effect.entityLookup g, Effect.probeCall g]

/-- The `for chat_id in list(tracked_chats)` loop of one tick. -/
def scanChats (probe : Nat → ProbeOutcome) (cleaned : List Nat) : List Nat → List Effect
  | [] => []
  | g :: rest => chatEffects probe cleaned g ++ scanChats probe cleaned rest

/-- One iteration of `check_rights_loop` (lines 111-153): with no tracked
chats only the idle status message is sent; otherwise every tracked chat is
scanned and the tick ends with a status send.  `tracked` models
`list(tracked_chats)` (a Python set, hence duplicate-free) and `cleaned`
models the `cleaned_chats` set.  Sends of the loop itself are modelled as
succeeding; send failures are studied on the purge model, where the claims
place them. -/
def tickOnce (probe : Nat → ProbeOutcome) (tracked cleaned : List Nat) : List Effect :=
  if tracked.isEmpty then [Effect.statusSend]
  else scanChats probe cleaned tracked ++ [Effect.statusSend]

/-- Effects of `n` consecutive ticks over which neither `tracked_chats` nor
`cleaned_chats` changes — in particular, no launched purge task completes in
between (`cleaned_chats` only ever grows at line 100, on task completion). -/
def ticksN (probe : Nat → ProbeOutcome) (tracked cleaned : List Nat) : Nat → List Effect
  | 0 => []
  | n + 1 => tickOnce probe tracked cleaned ++ ticksN probe tracked cleaned n

/-- Group ids for which a purge task is launched, in order. -/
def launchesOf (effs : List Effect) : List Nat :=
  effs.filterMap (fun e => match e with | Effect.launch g => some g | _ => none)

/-- Group ids for which a console warning line is printed, in order. -/
def errLogsOf (effs : List Effect) : List Nat :=
  effs.filterMap (fun e => match e with | Effect.errLog g => some g | _ => none)

/-- Condition under which the tick body launches a purge task for `g`
(line 136 and 139): probe succeeded with both flags, and `g` is not in
`cleaned_chats`. -/
def launchesChat (probe : Nat → ProbeOutcome) (cleaned : List Nat) (g : Nat) : Bool :=
  match probe g with
  | .perms a b => a && b && !(cleaned.contains g)
  | _ => false

/-- Whether a probe outcome is one of the two failure cases the tick loop
logs and skips. -/
def isProbeFailure : ProbeOutcome → Bool
  | .entityErr => true
  | .permErr => true
  | .perms _ _ => false

/-- Payload of a `ChatAction` event as read by `on_added` (line 159):
whether a user was added, which user, and the chat it happened in. -/
structure AddedEvent where
  userAdded : Bool
  userId : Nat
  chatId : Nat
  deriving DecidableEq

/-- Model of `tracked_chats.add` (Python set insertion). -/
def addChat (g : Nat) (tracked : List Nat) : List Nat :=
  if tracked.contains g then tracked else tracked ++ [g]

/-- Model of the `on_added` handler (lines 156-165): when the added user is
the bot itself, the chat id is inserted into `tracked_chats` and a notice is
sent announcing that ban rights will be checked in the next cycle; nothing
else happens — in particular no permission probe and no task launch. -/
def on_added (meId : Nat) (ev : AddedEvent) (tracked : List Nat) : List Nat × List Effect :=
  if ev.userAdded && (ev.userId == meId) then
    (addChat ev.chatId tracked, [Effect.addedNotice ev.chatId])
  else (tracked, [])

/- ===== Startup seeding (`load_initial_chats`, lines 37-54). -/

/-- Decimal value of a digit string. -/
def decimalNat (cs : List Char) : Nat :=
  cs.foldl (fun n c => n * 10 + (c.toNat - Char.toNat '0')) 0

/-- Model of Python `int(s)` applied to an already-stripped string: an
optional sign followed by one or more ASCII digits; anything else raises
`ValueError` (`none`).  CPython extras (digit-grouping underscores, non-ASCII
digits) are not modelled. -/
def parsePyInt (s : String) : Option Int :=
  match s.data with
  | [] => none
  | '-' :: rest =>
      if !rest.isEmpty && rest.all Char.isDigit then some (-(decimalNat rest : Int)) else none
  | '+' :: rest =>
      if !rest.isEmpty && rest.all Char.isDigit then some ((decimalNat rest : Int)) else none
  | l => if l.all Char.isDigit then some ((decimalNat l : Int)) else none

/-- Result of seeding: the set added to `tracked_chats` and the entries for
which a warning line was printed (line 52), in order. -/
structure SeedResult where
  seeded : Finset Int
  warnings : List String
  deriving DecidableEq

/-- Body of the seeding loop (lines 45-52): strip the entry, skip it when
empty, otherwise add its integer value or record a warning when `int(...)`
raises `ValueError`. -/
def seedStep (acc : SeedResult) (rawId : String) : SeedResult :=
  let t := rawId.trim
  if t.data.isEmpty then acc
  else
    match parsePyInt t with
    | some v => ⟨insert v acc.seeded, acc.warnings⟩
    | none => ⟨acc.seeded, acc.warnings ++ [t]⟩

/-- Model of `load_initial_chats` (lines 37-54): `raw` is
`os.environ.get("TRACKED_CHAT_IDS")`; a missing or empty variable yields the
empty set (line 42), otherwise the comma-separated entries are folded through
`seedStep`. -/
def load_initial_chats (raw : Option String) : SeedResult :=
  match raw with
  | none => ⟨∅, []⟩
  | some s => if s.data.isEmpty then ⟨∅, []⟩ else (s.splitOn ",").foldl seedStep ⟨∅, []⟩

/-- The entries of a split seed list that parse as integers after stripping,
in order: what seeding is expected to add. -/
def parsedEntries (es : List String) : List Int :=
  es.filterMap (fun e => parsePyInt e.trim)

/-- The entries that are nonempty after stripping but fail to parse: what
seeding is expected to warn about. -/
def malformedEntries (es : List String) : List String :=
  es.filterMap (fun e =>
    let t := e.trim
    if t.data.isEmpty then none
    else match parsePyInt t with
      | some _ => none
      | none => some t)

/- ===== Concrete environments used by the closed theorems below. -/

/-- Failing input for the rights-lost-mid-run behaviour: three members, bot id
99, `kick_participant` raises `ChatAdminRequiredError` at member 2, every
`send_message` succeeds. -/
def envLostMidRun : Env :=
  ⟨99, Except.ok [1, 2, 3], fun u => if u = 2 then some Exc.chatAdminRequired else none,
   fun _ => none⟩

/-- Scenario A of the spec: 45 members including the bot (id 0), every kick
and every send succeeds. -/
def envScenarioA : Env :=
  ⟨0, Except.ok (List.range 45), fun _ => none, fun _ => none⟩

/-- Environment whose starting message (send number 0) fails with a generic
exception. -/
def envStartSendFails : Env :=
  ⟨0, Except.ok [1, 2], fun _ => none, fun i => if i = 0 then some Exc.other else none⟩

/-- Environment with 25 members (including the bot, id 0) whose only progress
message (send number 1) fails with a generic exception. -/
def envProgressSendFails : Env :=
  ⟨0, Except.ok (List.range 25), fun _ => none, fun i => if i = 1 then some Exc.other else none⟩

/-- Environment where the kick of member 2 fails with a transient (generic)
exception. -/
def envOneKickFails : Env :=
  ⟨0, Except.ok [1, 2, 3], fun u => if u = 2 then some Exc.other else none, fun _ => none⟩

/-- Environment whose completion summary (send number 1: two members, no
progress message) fails with a generic exception. -/
def envFinalSendFails : Env :=
  ⟨0, Except.ok [1, 2], fun _ => none, fun i => if i = 1 then some Exc.other else none⟩

/-- Sample seed string exercising whitespace, sign, malformed and empty
entries. -/
def seedSample : String := " 12, -5 , abc, , 7 "

/- ===== Helper lemmas on the purge model. -/

theorem progressVals_append (a b : List Msg) :
    progressVals (a ++ b) = progressVals a ++ progressVals b := by
  simp [progressVals, List.filterMap_append]

theorem twentiesUpTo_zero : twentiesUpTo 0 = [] := rfl

theorem twentiesUpTo_succ_of_mod (r : Nat) (h : (r + 1) % 20 = 0) :
    twentiesUpTo (r + 1) = twentiesUpTo r ++ [r + 1] := by
  have h1 : (r + 1) / 20 = r / 20 + 1 := by omega
  have h2 : 20 * (r / 20 + 1) = r + 1 := by omega
  unfold twentiesUpTo
  rw [h1, List.range_succ, List.map_append]
  simp [h2]

theorem twentiesUpTo_succ_of_not_mod (r : Nat) (h : ¬ (r + 1) % 20 = 0) :
    twentiesUpTo (r + 1) = twentiesUpTo r := by
  have h1 : (r + 1) / 20 = r / 20 := by omega
  unfold twentiesUpTo
  rw [h1]

theorem purgeStep_kicks (env : Env) (total : Nat) (s : LoopState) (uid : Nat) :
    (purgeStep env total s uid).kicks
      = s.kicks ++ (if uid = env.meId then [] else [uid]) := by
  unfold purgeStep
  by_cases hme : uid = env.meId
  · simp [hme]
  · simp only [if_neg hme]
    rcases hk : env.kick uid with _ | e
    · by_cases h20 : (s.removed + 1) % 20 = 0
      · simp only [if_pos h20]
        rcases hs : env.sendFail s.sendIdx with _ | e2 <;> simp
      · simp [h20]
    · simp

theorem purgeStep_removed (env : Env) (total : Nat) (s : LoopState) (uid : Nat) :
    (purgeStep env total s uid).removed
      = s.removed + (if uid ≠ env.meId ∧ env.kick uid = none then 1 else 0) := by
  unfold purgeStep
  by_cases hme : uid = env.meId
  · simp [hme]
  · simp only [if_neg hme]
    rcases hk : env.kick uid with _ | e
    · by_cases h20 : (s.removed + 1) % 20 = 0
      · simp only [if_pos h20]
        rcases hs : env.sendFail s.sendIdx with _ | e2 <;> simp [hme]
      · simp [h20, hme]
    · simp [hme, hk]

theorem purgeStep_sendIdx (env : Env) (total : Nat) (s : LoopState) (uid : Nat) :
    (purgeStep env total s uid).sendIdx + s.removed / 20
      = s.sendIdx + (purgeStep env total s uid).removed / 20 := by
  unfold purgeStep
  by_cases hme : uid = env.meId
  · simp [hme]
  · simp only [if_neg hme]
    rcases hk : env.kick uid with _ | e
    · by_cases h20 : (s.removed + 1) % 20 = 0
      · simp only [if_pos h20]
        rcases hs : env.sendFail s.sendIdx with _ | e2 <;> simp <;> omega
      · simp [h20]
        omega
    · simp

theorem purgeStep_progress (env : Env) (total : Nat) (s : LoopState) (uid : Nat)
    (hsend : env.sendFail = fun _ => none)
    (hInv : progressVals s.msgs = twentiesUpTo s.removed) :
    progressVals (purgeStep env total s uid).msgs
      = twentiesUpTo (purgeStep env total s uid).removed := by
  unfold purgeStep
  by_cases hme : uid = env.meId
  · simpa [hme] using hInv
  · simp only [if_neg hme]
    rcases hk : env.kick uid with _ | e
    · by_cases h20 : (s.removed + 1) % 20 = 0
      · simp only [if_pos h20, hsend]
        rw [twentiesUpTo_succ_of_mod _ h20, ← hInv]
        simp [progressVals, List.filterMap_append]
      · simp only [if_neg h20]
        rw [twentiesUpTo_succ_of_not_mod _ h20, ← hInv]
    · simpa using hInv

theorem foldl_kicks (env : Env) (total : Nat) :
    ∀ (l : List Nat) (s : LoopState),
      (List.foldl (purgeStep env total) s l).kicks
        = s.kicks ++ l.filter (fun u => u != env.meId) := by
  intro l
  induction l with
  | nil => intro s; simp
  | cons u rest ih =>
    intro s
    rw [List.foldl_cons, ih, purgeStep_kicks]
    by_cases hme : u = env.meId <;> simp [List.filter_cons, hme]

theorem foldl_removed (env : Env) (total : Nat) :
    ∀ (l : List Nat) (s : LoopState),
      (List.foldl (purgeStep env total) s l).removed = s.removed + succCountL env l := by
  intro l
  induction l with
  | nil => intro s; simp [succCountL]
  | cons u rest ih =>
    intro s
    rw [List.foldl_cons, ih, purgeStep_removed]
    by_cases hcond : u ≠ env.meId ∧ env.kick u = none
    · simp [succCountL, hcond]
      omega
    · simp [succCountL, hcond]

theorem foldl_sendIdx (env : Env) (total : Nat) :
    ∀ (l : List Nat) (s : LoopState),
      (List.foldl (purgeStep env total) s l).sendIdx + s.removed / 20
        = s.sendIdx + (List.foldl (purgeStep env total) s l).removed / 20 := by
  intro l
  induction l with
  | nil => intro s; simp
  | cons u rest ih =>
    intro s
    have h1 := purgeStep_sendIdx env total s u
    have h2 := ih (purgeStep env total s u)
    rw [List.foldl_cons]
    omega

theorem foldl_progress (env : Env) (total : Nat) (hsend : env.sendFail = fun _ => none) :
    ∀ (l : List Nat) (s : LoopState),
      progressVals s.msgs = twentiesUpTo s.removed →
      progressVals (List.foldl (purgeStep env total) s l).msgs
        = twentiesUpTo (List.foldl (purgeStep env total) s l).removed := by
  intro l
  induction l with
  | nil => intro s h; exact h
  | cons u rest ih =>
    intro s h
    rw [List.foldl_cons]
    exact ih _ (purgeStep_progress env total s u hsend h)

theorem purgeRun_kicks (env : Env) (l : List Nat) :
    (purgeRun env l).kicks = l.filter (fun u => u != env.meId) := by
  unfold purgeRun
  rw [foldl_kicks]
  simp [initState]

theorem purgeRun_removed (env : Env) (l : List Nat) :
    (purgeRun env l).removed = succCountL env l := by
  unfold purgeRun
  rw [foldl_removed]
  simp [initState]

theorem purgeRun_sendIdx (env : Env) (l : List Nat) :
    (purgeRun env l).sendIdx = 1 + succCountL env l / 20 := by
  have h := foldl_sendIdx env l.length l (initState l.length)
  have h2 := foldl_removed env l.length l (initState l.length)
  unfold purgeRun
  simp only [initState] at h h2 ⊢
  omega

theorem lostRightsSend_kicks (env : Env) (i : Nat) (base : RunResult) :
    (lostRightsSend env i base).kicks = base.kicks := by
  unfold lostRightsSend
  rcases env.sendFail i with _ | e <;> rfl

theorem lostRightsSend_removed (env : Env) (i : Nat) (base : RunResult) :
    (lostRightsSend env i base).removed = base.removed := by
  unfold lostRightsSend
  rcases env.sendFail i with _ | e <;> rfl

theorem lostRightsSend_cleaned (env : Env) (i : Nat) (base : RunResult) :
    (lostRightsSend env i base).cleaned = base.cleaned := by
  unfold lostRightsSend
  rcases env.sendFail i with _ | e <;> rfl

/- ===== Helper lemmas on the tick model. -/

theorem launchesOf_append (a b : List Effect) :
    launchesOf (a ++ b) = launchesOf a ++ launchesOf b := by
  simp [launchesOf, List.filterMap_append]

theorem errLogsOf_append (a b : List Effect) :
    errLogsOf (a ++ b) = errLogsOf a ++ errLogsOf b := by
  simp [errLogsOf, List.filterMap_append]

theorem launchesOf_chatEffects (probe : Nat → ProbeOutcome) (cleaned : List Nat) (g : Nat) :
    launchesOf (chatEffects probe cleaned g)
      = if launchesChat probe cleaned g then [g] else [] := by
  unfold chatEffects launchesChat
  rcases probe g with _ | _ | ⟨a, b⟩
  · simp [launchesOf]
  · simp [launchesOf]
  · by_cases hab : (a && b) = true
    · by_cases hc : g ∈ cleaned
      · simp [hab, hc, launchesOf]
      · simp [hab, hc, launchesOf]
    · simp [hab, launchesOf]

theorem launchesOf_scanChats (probe : Nat → ProbeOutcome) (cleaned : List Nat) :
    ∀ l : List Nat,
      launchesOf (scanChats probe cleaned l) = l.filter (launchesChat probe cleaned) := by
  intro l
  induction l with
  | nil => simp [scanChats, launchesOf]
  | cons g rest ih =>
    rw [scanChats, launchesOf_append, launchesOf_chatEffects, ih, List.filter_cons]
    by_cases h : launchesChat probe cleaned g = true <;> simp [h]

theorem launchesOf_tickOnce (probe : Nat → ProbeOutcome) (tracked cleaned : List Nat) :
    launchesOf (tickOnce probe tracked cleaned)
      = tracked.filter (launchesChat probe cleaned) := by
  unfold tickOnce
  by_cases h : tracked.isEmpty
  · rw [if_pos h, List.isEmpty_iff.mp h]
    simp [launchesOf]
  · rw [if_neg h, launchesOf_append, launchesOf_scanChats]
    simp [launchesOf]

theorem errLogsOf_tickOnce_single (probe : Nat → ProbeOutcome) (g : Nat) (cleaned : List Nat)
    (h : isProbeFailure (probe g) = true) :
    errLogsOf (tickOnce probe [g] cleaned) = [g] := by
  unfold tickOnce scanChats scanChats chatEffects
  rcases hp : probe g with _ | _ | ⟨a, b⟩
  · simp [errLogsOf]
  · simp [errLogsOf]
  · rw [hp] at h
    simp [isProbeFailure] at h

theorem mem_addChat (g : Nat) (tracked : List Nat) : g ∈ addChat g tracked := by
  unfold addChat
  by_cases h : tracked.contains g = true
  · rw [if_pos h]
    simpa using h
  · rw [if_neg h]
    simp

theorem probeCall_mem_scanChats (probe : Nat → ProbeOutcome) (cleaned : List Nat) (g : Nat) :
    ∀ l : List Nat, g ∈ l → probe g ≠ ProbeOutcome.entityErr →
      Effect.probeCall g ∈ scanChats probe cleaned l := by
  intro l
  induction l with
  | nil => intro h; simp at h
  | cons a rest ih =>
    intro hmem hne
    rw [scanChats, List.mem_append]
    rcases List.mem_cons.mp hmem with heq | htail
    · left
      subst heq
      unfold chatEffects
      rcases hp : probe g with _ | _ | ⟨x, y⟩
      · exact absurd hp hne
      · simp
      · by_cases hxy : (x && y) = true
        · by_cases hc : g ∈ cleaned <;> simp [hxy, hc]
        · simp [hxy]
    · right
      exact ih htail hne

/- ===== Helper lemmas on the seeding model. -/

theorem parsePyInt_empty_trim (e : String) (h : e.trim.data.isEmpty = true) :
    parsePyInt e.trim = none := by
  unfold parsePyInt
  rcases hd : e.trim.data with _ | ⟨c, rest⟩
  · rfl
  · rw [hd] at h
    simp at h

theorem seed_foldl (es : List String) :
    ∀ (s0 : Finset Int) (w0 : List String),
      es.foldl seedStep ⟨s0, w0⟩
        = ⟨s0 ∪ (parsedEntries es).toFinset, w0 ++ malformedEntries es⟩ := by
  induction es with
  | nil => intro s0 w0; simp [parsedEntries, malformedEntries]
  | cons e rest ih =>
    intro s0 w0
    rw [List.foldl_cons]
    by_cases hemp : e.trim.data.isEmpty = true
    · have hd : e.trim.data = [] := List.isEmpty_iff.mp hemp
      have hp := parsePyInt_empty_trim e hemp
      have hstep : seedStep ⟨s0, w0⟩ e = ⟨s0, w0⟩ := by simp [seedStep, hemp]
      rw [hstep, ih]
      simp [parsedEntries, malformedEntries, List.filterMap_cons, hp, hd]
    · have hd : ¬ e.trim.data = [] := fun hh => hemp (by simp [hh])
      rcases hp : parsePyInt e.trim with _ | v
      · have hstep : seedStep ⟨s0, w0⟩ e = ⟨s0, w0 ++ [e.trim]⟩ := by
          simp [seedStep, hemp, hp]
        rw [hstep, ih]
        simp [parsedEntries, malformedEntries, List.filterMap_cons, hp, hd]
      · have hstep : seedStep ⟨s0, w0⟩ e = ⟨insert v s0, w0⟩ := by
          simp [seedStep, hemp, hp]
        rw [hstep, ih]
        simp [parsedEntries, malformedEntries, List.filterMap_cons, hp, hd,
          Finset.insert_union, Finset.union_insert]

/- ===== Claim theorems. -/

/-- C3: for every environment, the agent's own id is never passed to
`kick_participant`: the guard on line 76 of `app.py` makes the removal call
unreachable for the self member, on every path of `remove_all_members`. -/
theorem self_never_kicked (env : Env) : env.meId ∉ (remove_all_members env).kicks := by
  have key : ∀ l : List Nat, env.meId ∉ (purgeRun env l).kicks := by
    intro l h
    rw [purgeRun_kicks] at h
    simp [List.mem_filter] at h
  rcases hm : env.members with e | l
  · rcases e <;> simp [remove_all_members, hm, lostRightsSend_kicks]
  · rcases hs0 : env.sendFail 0 with _ | e0
    · rcases hs : env.sendFail (purgeRun env l).sendIdx with _ | e1
      · simp only [remove_all_members, hm, hs0, hs]
        exact key l
      · rcases e1
        · simp only [remove_all_members, hm, hs0, hs, lostRightsSend_kicks]
          exact key l
        · simp only [remove_all_members, hm, hs0, hs]
          exact key l
    · rcases e0 <;> simp [remove_all_members, hm, hs0, lostRightsSend_kicks]

/-- C2 (code evaluated at the failing input): when `kick_participant` raises
`ChatAdminRequiredError` at member 2, the blanket per-member handler on
line 84 swallows it: iteration continues to member 3, no lost-rights
notification is ever sent, the failure is only console-logged, and the group
IS marked cleaned — contradicting the intended abort documented by the
code's own "stopping cleanup" handler (lines 102-106). -/
theorem rights_loss_mid_run_swallowed :
    (remove_all_members envLostMidRun).kicks = [1, 2, 3] ∧
    (remove_all_members envLostMidRun).cleaned = true ∧
    Msg.lostRights ∉ (remove_all_members envLostMidRun).msgs ∧
    (remove_all_members envLostMidRun).logs = [2] := by decide

/-- C1 (counterexample): with group 5 tracked, probes reporting full rights on
two consecutive ticks, and the task launched by the first tick still running
(so `cleaned_chats` is still empty — it only grows when a task completes,
line 100), the second tick launches a second purge task for group 5: two
tasks are active for the same group at once. -/
theorem second_purge_task_while_first_running :
    (launchesOf (ticksN (fun _ => ProbeOutcome.perms true true) [5] [] 2)).count 5 = 2 := by
  decide

/-- C1 (amended): within a single poll tick at most one purge task is
launched per group (tracked ids are a Python set, hence duplicate-free), and
none at all for a group already in `cleaned_chats`; the code has no in-flight
map, so nothing prevents a later tick from launching again while an earlier
task still runs. -/
theorem tick_at_most_one_launch_per_group (probe : Nat → ProbeOutcome)
    (tracked cleaned : List Nat) (g : Nat) (h : tracked.Nodup) :
    (launchesOf (tickOnce probe tracked cleaned)).count g
      ≤ (if g ∈ cleaned then 0 else 1) := by
  rw [launchesOf_tickOnce]
  by_cases hc : g ∈ cleaned
  · rw [if_pos hc]
    have hnot : g ∉ tracked.filter (launchesChat probe cleaned) := by
      intro hm
      have h2 := (List.mem_filter.mp hm).2
      unfold launchesChat at h2
      rcases hp : probe g with _ | _ | ⟨a, b⟩ <;> rw [hp] at h2 <;> simp [hc] at h2
    exact Nat.le_of_eq (List.count_eq_zero.mpr hnot)
  · rw [if_neg hc]
    exact le_trans ((List.filter_sublist tracked).count_le g)
      (List.nodup_iff_count_le_one.mp h g)

/-- Witness for the amended C1 theorem at a concrete tick. -/
theorem tick_at_most_one_launch_per_group_wit :
    (launchesOf (tickOnce (fun _ => ProbeOutcome.perms true true) [1, 2] [2])).count 2
      ≤ (if 2 ∈ ([2] : List Nat) then 0 else 1) :=
  tick_at_most_one_launch_per_group (fun _ => ProbeOutcome.perms true true) [1, 2] [2] 2
    (by decide)

/-- C4 (counterexample): when the entity lookup for tracked group 3 fails with
the same error three ticks in a row, the loop prints a console warning every
single tick — three reports, not the single first-failure notification the
claim requires; no throttling state exists anywhere in the code. -/
theorem three_probe_failures_three_warnings :
    (errLogsOf (ticksN (fun _ => ProbeOutcome.entityErr) [3] [] 3)).count 3 = 3 ∧
    (errLogsOf (ticksN (fun _ => ProbeOutcome.entityErr) [3] [] 3)).count 3 ≠ 1 := by
  decide

/-- C4 (amended): a group whose probe fails is console-logged once per tick,
every tick, with no suppression: `n` consecutive failing ticks produce
exactly `n` warnings for that group (and no operator-channel error
notification exists at all in the tick loop). -/
theorem probe_failure_warned_every_tick (probe : Nat → ProbeOutcome) (g : Nat)
    (cleaned : List Nat) (n : Nat) (h : isProbeFailure (probe g) = true) :
    (errLogsOf (ticksN probe [g] cleaned n)).count g = n := by
  induction n with
  | zero => simp [ticksN, errLogsOf]
  | succ n ih =>
    rw [show ticksN probe [g] cleaned (n + 1)
        = tickOnce probe [g] cleaned ++ ticksN probe [g] cleaned n from rfl]
    rw [errLogsOf_append, List.count_append, errLogsOf_tickOnce_single probe g cleaned h, ih]
    simp [Nat.add_comm]

/-- Witness for the amended C4 theorem: two failing ticks, two warnings. -/
theorem probe_failure_warned_every_tick_wit :
    (errLogsOf (ticksN (fun _ => ProbeOutcome.permErr) [6] [] 2)).count 6 = 2 :=
  probe_failure_warned_every_tick (fun _ => ProbeOutcome.permErr) 6 [] 2 (by decide)

/-- C5: with the member snapshot fetched and every notification send
succeeding, the progress messages of one purge task carry exactly the
counters `20, 40, ..., 20 * (successes / 20)` in that order (`twentiesUpTo`):
one message exactly after each 20th successful removal, counters strictly
increasing multiples of 20, and none at all when fewer than 20 removals
succeed. -/
theorem progress_every_twentieth_removal (env : Env) (l : List Nat)
    (h1 : env.members = Except.ok l) (h2 : env.sendFail = fun _ => none) :
    progressVals (remove_all_members env).msgs = twentiesUpTo (succCountL env l) := by
  have hrun : progressVals (purgeRun env l).msgs = twentiesUpTo (purgeRun env l).removed := by
    unfold purgeRun
    exact foldl_progress env l.length h2 l (initState l.length)
      (by simp [initState, progressVals, twentiesUpTo])
  simp only [remove_all_members, h1, h2]
  rw [progressVals_append, hrun, purgeRun_removed]
  simp [progressVals]

/-- Witness for C5: Scenario A of the spec — 45 members including the agent,
44 successful removals, progress messages exactly at 20 and 40. -/
theorem progress_every_twentieth_removal_wit :
    progressVals (remove_all_members envScenarioA).msgs = [20, 40] :=
  (progress_every_twentieth_removal envScenarioA (List.range 45) rfl rfl).trans (by decide)

/-- C6 (counterexample): the `on_added` hook, for a concrete added-event,
produces only the added-notice send: no permission probe and no task launch
happen at event time, contradicting the claimed immediate probe-and-feed. -/
theorem added_event_makes_no_probe :
    (on_added 9 ⟨true, 9, 4⟩ []).2 = [Effect.addedNotice 4] ∧
    Effect.probeCall 4 ∉ (on_added 9 ⟨true, 9, 4⟩ []).2 ∧
    launchesOf (on_added 9 ⟨true, 9, 4⟩ []).2 = [] := by decide

/-- C6 (amended): when the bot itself is added, the hook only inserts the
chat into `tracked_chats` and sends a notice announcing a check in the next
cycle; the chat's first capability probe then happens on the next poll tick
(provided its entity lookup succeeds). -/
theorem added_event_only_tracks (meId : Nat) (ev : AddedEvent) (tracked cleaned : List Nat)
    (probe : Nat → ProbeOutcome)
    (h1 : ev.userAdded = true) (h2 : ev.userId = meId)
    (h3 : probe ev.chatId ≠ ProbeOutcome.entityErr) :
    (on_added meId ev tracked).2 = [Effect.addedNotice ev.chatId] ∧
    (on_added meId ev tracked).1 = addChat ev.chatId tracked ∧
    Effect.probeCall ev.chatId ∈ tickOnce probe (on_added meId ev tracked).1 cleaned := by
  have hon : on_added meId ev tracked
      = (addChat ev.chatId tracked, [Effect.addedNotice ev.chatId]) := by
    simp [on_added, h1, h2]
  refine ⟨by rw [hon], by rw [hon], ?_⟩
  rw [hon]
  have hmem := mem_addChat ev.chatId tracked
  have hne : (addChat ev.chatId tracked).isEmpty = false := by
    rcases hl : addChat ev.chatId tracked with _ | ⟨x, xs⟩
    · rw [hl] at hmem
      simp at hmem
    · rfl
  unfold tickOnce
  simp only [hne, Bool.false_eq_true, if_false]
  exact List.mem_append.mpr (Or.inl (probeCall_mem_scanChats probe cleaned ev.chatId _ hmem h3))

/-- Witness for the amended C6 theorem at a concrete event. -/
theorem added_event_only_tracks_wit :
    (on_added 11 ⟨true, 11, 8⟩ [3]).2 = [Effect.addedNotice 8] ∧
    (on_added 11 ⟨true, 11, 8⟩ [3]).1 = addChat 8 [3] ∧
    Effect.probeCall 8 ∈
      tickOnce (fun _ => ProbeOutcome.perms false false) (on_added 11 ⟨true, 11, 8⟩ [3]).1 [] :=
  added_event_only_tracks 11 ⟨true, 11, 8⟩ [3] [] (fun _ => ProbeOutcome.perms false false)
    rfl rfl (by decide)

/-- C7 (counterexample): a generic failure of the starting notification is
not swallowed: the outer handler catches only `ChatAdminRequiredError`, so
the exception escapes the purge task, the whole removal iteration is aborted
before a single member is attempted, and the group is not marked cleaned. -/
theorem starting_send_failure_escapes :
    (remove_all_members envStartSendFails).exc = some Exc.other ∧
    (remove_all_members envStartSendFails).kicks = [] ∧
    (remove_all_members envStartSendFails).cleaned = false := by decide

/-- C7 (amended): failures of progress notifications are genuinely swallowed:
whenever the snapshot fetch, the starting send (call 0) and the completion
send (call `1 + successes / 20`) succeed, every non-self member is attempted,
no exception escapes and the task completes — regardless of the outcome of
every progress send in between. -/
theorem progress_send_failures_swallowed (env : Env) (l : List Nat)
    (h1 : env.members = Except.ok l) (h2 : env.sendFail 0 = none)
    (h3 : env.sendFail (1 + succCountL env l / 20) = none) :
    (remove_all_members env).kicks = l.filter (fun u => u != env.meId) ∧
    (remove_all_members env).exc = none ∧
    (remove_all_members env).cleaned = true := by
  have hidx : env.sendFail (purgeRun env l).sendIdx = none := by
    rw [purgeRun_sendIdx]
    exact h3
  simp only [remove_all_members, h1, h2, hidx]
  simp [purgeRun_kicks]

/-- Witness for the amended C7 theorem: 25 members, the single progress send
(call 1) fails, yet all 24 non-self members are attempted and the task
completes cleanly. -/
theorem progress_send_failures_swallowed_wit :
    (remove_all_members envProgressSendFails).kicks
        = (List.range 25).filter (fun u => u != envProgressSendFails.meId) ∧
    (remove_all_members envProgressSendFails).exc = none ∧
    (remove_all_members envProgressSendFails).cleaned = true :=
  progress_send_failures_swallowed envProgressSendFails (List.range 25) rfl (by decide)
    (by decide)

/-- C8: seeding adds exactly the comma-separated entries that parse as
integers after stripping surrounding whitespace, warns (without failing) on
exactly the nonempty entries that do not parse, silently skips empty entries,
and yields the empty set when the variable is absent or the empty string. -/
theorem seeding_parses_exactly_integer_entries (s : String) (hne : s.data ≠ []) :
    load_initial_chats none = ⟨∅, []⟩ ∧
    load_initial_chats (some "") = ⟨∅, []⟩ ∧
    (load_initial_chats (some s)).seeded = (parsedEntries (s.splitOn ",")).toFinset ∧
    (load_initial_chats (some s)).warnings = malformedEntries (s.splitOn ",") := by
  have hsne : s.data.isEmpty = false := by
    rcases hd : s.data with _ | ⟨c, cs⟩
    · exact absurd hd hne
    · rfl
  have hload : load_initial_chats (some s) = (s.splitOn ",").foldl seedStep ⟨∅, []⟩ := by
    unfold load_initial_chats
    simp [hsne]
  refine ⟨rfl, rfl, ?_, ?_⟩ <;> rw [hload, seed_foldl] <;> simp

/-- Witness for C8 at a concrete seed string containing whitespace, signs, a
malformed entry and an empty entry. -/
theorem seeding_parses_exactly_integer_entries_wit :
    load_initial_chats none = ⟨∅, []⟩ ∧
    load_initial_chats (some "") = ⟨∅, []⟩ ∧
    (load_initial_chats (some seedSample)).seeded
        = (parsedEntries (seedSample.splitOn ",")).toFinset ∧
    (load_initial_chats (some seedSample)).warnings
        = malformedEntries (seedSample.splitOn ",") :=
  seeding_parses_exactly_integer_entries seedSample (by decide)

/-- C9: a per-member removal failure is non-fatal: with the snapshot fetched
and the starting send succeeding, every non-self member of the snapshot is
attempted in order (a raising kick never stops the loop), and the final
`removed` counter counts exactly the members whose kick succeeded — failed
members are not counted. -/
theorem per_member_failure_nonfatal (env : Env) (l : List Nat)
    (h1 : env.members = Except.ok l) (h2 : env.sendFail 0 = none) :
    (remove_all_members env).kicks = l.filter (fun u => u != env.meId) ∧
    (remove_all_members env).removed = succCountL env l := by
  simp only [remove_all_members, h1, h2]
  rcases hs : env.sendFail (purgeRun env l).sendIdx with _ | e1
  · exact ⟨purgeRun_kicks env l, purgeRun_removed env l⟩
  · rcases e1
    · exact ⟨by rw [lostRightsSend_kicks]; exact purgeRun_kicks env l,
        by rw [lostRightsSend_removed]; exact purgeRun_removed env l⟩
    · exact ⟨purgeRun_kicks env l, purgeRun_removed env l⟩

/-- Witness for C9: the kick of member 2 raises a transient error; members 1,
2, 3 are all attempted and the counter ends at 2. -/
theorem per_member_failure_nonfatal_wit :
    (remove_all_members envOneKickFails).kicks
        = [1, 2, 3].filter (fun u => u != envOneKickFails.meId) ∧
    (remove_all_members envOneKickFails).removed = succCountL envOneKickFails [1, 2, 3] :=
  per_member_failure_nonfatal envOneKickFails [1, 2, 3] rfl rfl

/-- C10: with the snapshot fetched and the starting send succeeding, the
group is marked cleaned exactly when the completion-summary send (call
`1 + successes / 20`) returns successfully — a raising summary send leaves
the group unmarked; and any group absent from `cleaned_chats` whose probe
reports full rights gets a brand-new purge task launched at the next tick. -/
theorem cleaned_only_after_summary_send (env : Env) (l : List Nat) (g : Nat)
    (h1 : env.members = Except.ok l) (h2 : env.sendFail 0 = none) :
    ((remove_all_members env).cleaned = true
        ↔ env.sendFail (1 + succCountL env l / 20) = none) ∧
    launchesOf (tickOnce (fun _ => ProbeOutcome.perms true true) [g] []) = [g] := by
  constructor
  · rw [← purgeRun_sendIdx env l]
    simp only [remove_all_members, h1, h2]
    rcases hs : env.sendFail (purgeRun env l).sendIdx with _ | e1
    · simp
    · rcases e1
      · rw [lostRightsSend_cleaned]
        simp
      · simp
  · rw [launchesOf_tickOnce]
    simp [launchesChat, List.filter_cons]

/-- Witness for C10: the completion summary (send 1) fails, so the group is
not marked cleaned. -/
theorem cleaned_only_after_summary_send_wit :
    ((remove_all_members envFinalSendFails).cleaned = true
        ↔ envFinalSendFails.sendFail (1 + succCountL envFinalSendFails [1, 2] / 20) = none) ∧
    launchesOf (tickOnce (fun _ => ProbeOutcome.perms true true) [7] []) = [7] :=
  cleaned_only_after_summary_send envFinalSendFails [1, 2] 7 rfl (by decide)

end Banall
